import Mathlib

/-!
Verification of the vipers assertion library (saber-hq/vipers) against its
natural-language specification.

The development shallowly embeds the two revisions of the library present in
the repository:
* the current crate (`vipers/src/assert.rs`, `vipers/src/error.rs`,
  `vipers/src/keyref.rs`, `vipers/src/lib.rs`), and
* the legacy root crate (`src/assert.rs`, `src/lib.rs`), whose constructs
  carry a `V1` suffix here.

Rust macros expand at the call site by token shape; following the spec's own
reconstruction (section 4.3), the trailing-argument forms are embedded as an
explicit tagged argument descriptor (`Arg`), and each macro arm becomes one
match arm of a resolution function.  `msg!` log emission is modelled as an
explicit trace of `Log` events, in emission order.
-/

/-- A 32-byte account/program identifier (Solana `Pubkey`).  The library only
compares identifiers bitwise, so the identifier is modelled as an abstract
value with decidable (bitwise-exact) equality. -/
structure Pubkey where
  val : Nat
deriving DecidableEq

/-- The host runtime's `AccountInfo`: the fields the library reads are the
account's key and its recorded owner program. -/
structure AccountInfo where
  key : Pubkey
  owner : Pubkey
deriving DecidableEq

/-- The error taxonomy `VipersError` from `vipers/src/error.rs` (`#[error_code(offset = 1100)]`),
variants in source declaration order. -/
inductive VipersError
  | KeyMismatch
  | ATAMismatch
  | ProgramIDMismatch
  | IntegerOverflow
  | OwnerMismatch
  | InvalidATA
  | InvariantFailed
  | OptionUnwrapFailed
  | KeysMustNotMatch
  | TokenAccountIsNonZero
  | UnknownBump
deriving DecidableEq

/-- Numeric code of a `VipersError`: offset 1100 plus the declaration index,
as produced by `#[error_code(offset = 1100)]`. -/
def VipersError.code : VipersError → Nat
  | .KeyMismatch => 1100
  | .ATAMismatch => 1101
  | .ProgramIDMismatch => 1102
  | .IntegerOverflow => 1103
  | .OwnerMismatch => 1104
  | .InvalidATA => 1105
  | .InvariantFailed => 1106
  | .OptionUnwrapFailed => 1107
  | .KeysMustNotMatch => 1108
  | .TokenAccountIsNonZero => 1109
  | .UnknownBump => 1110

/-- The `#[msg(...)]` text of each `VipersError` variant (its `Display`). -/
def VipersError.message : VipersError → String
  | .KeyMismatch => "Keys do not match."
  | .ATAMismatch => "Associated token account does not match."
  | .ProgramIDMismatch => "Program ID does not match."
  | .IntegerOverflow => "Integer overflow."
  | .OwnerMismatch => "The provided account is not owned by the specified program."
  | .InvalidATA => "The provided token account is not an associated token account."
  | .InvariantFailed => "Invariant failed."
  | .OptionUnwrapFailed => "Option unwrap failed."
  | .KeysMustNotMatch => "Keys must not match."
  | .TokenAccountIsNonZero => "The provided token account is non-zero: amount must be zero, it should not have a delegate, and it should not have a close authority."
  | .UnknownBump => "Bump not found."

/-- The `Debug` rendering of each `VipersError` variant (its constructor
name), used by `format_err!`. -/
def VipersError.debugName : VipersError → String
  | .KeyMismatch => "KeyMismatch"
  | .ATAMismatch => "ATAMismatch"
  | .ProgramIDMismatch => "ProgramIDMismatch"
  | .IntegerOverflow => "IntegerOverflow"
  | .OwnerMismatch => "OwnerMismatch"
  | .InvalidATA => "InvalidATA"
  | .InvariantFailed => "InvariantFailed"
  | .OptionUnwrapFailed => "OptionUnwrapFailed"
  | .KeysMustNotMatch => "KeysMustNotMatch"
  | .TokenAccountIsNonZero => "TokenAccountIsNonZero"
  | .UnknownBump => "UnknownBump"

/-- An error value thrown by an assertion: either one of this library's
`VipersError` kinds or a member of the hosting program's own error
enumeration (`crate::ErrorCode::...`), identified by its numeric code. -/
inductive ErrValue
  | vipers (e : VipersError)
  | host (code : Nat)
deriving DecidableEq

/-- The `Debug` rendering of a thrown error value.  The hosting program's error
type is external; its `Debug` output is modelled as a code-indexed name. -/
def ErrValue.debugStr : ErrValue → String
  | .vipers e => e.debugName
  | .host c => "HostErrorCode(" ++ Nat.repr c ++ ")"

/-- The `Display` rendering of a thrown error value. -/
def ErrValue.displayStr : ErrValue → String
  | .vipers e => e.message
  | .host c => "host error " ++ Nat.repr c

/-- The macro `format_err!($err)` from `assert.rs`: formats the error as
`"{:?}: {}"`, i.e. debug rendering, colon, display rendering. -/
def formatErr (e : ErrValue) : String :=
  e.debugStr ++ ": " ++ e.displayStr

/-- One emitted log line (`msg!` call), by call shape:
* `message`: the resolved message, emitted as one line;
* `srcText`: `msg!(stringify!(...))`, the source text of the condition;
* `leftKey` / `rightKey`: the `"Left: {}"` and `"Right: {}"` lines;
* `thrownAt`: `log_code_location!`, the `"Error thrown at {}:{}"` line;
* `ownerMismatch`: `assert_owner!`'s single combined
  `"Owner mismatch: {}: expected {}, got {}"` line;
* `optUnwrapFailed`: `msg!("Option unwrap failed: {:?}", err)`;
* `invariantFailedDbg`: the legacy `msg!("Invariant failed: {:?}", err)`. -/
inductive Log
  | message (s : String)
  | srcText (s : String)
  | leftKey (k : Pubkey)
  | rightKey (k : Pubkey)
  | thrownAt (file : String) (line : Nat)
  | ownerMismatch (m : String) (expected got : Pubkey)
  | optUnwrapFailed (dbg : String)
  | invariantFailedDbg (dbg : String)
deriving DecidableEq

instance exceptDecEq {ε α : Type} [DecidableEq ε] [DecidableEq α] :
    DecidableEq (Except ε α)
  | .ok a, .ok b => decidable_of_iff (a = b) (by simp)
  | .ok _, .error _ => isFalse (by simp)
  | .error _, .ok _ => isFalse (by simp)
  | .error e, .error f => decidable_of_iff (e = f) (by simp)

/-- A source location, as captured by `file!()` and `line!()` inside
`log_code_location!`. -/
structure SrcLoc where
  file : String
  line : Nat
deriving DecidableEq

/-- Result of one assertion: the emitted log trace (in order) and either
success or the thrown error. -/
structure Outcome where
  logs : List Log
  result : Except ErrValue Unit
deriving DecidableEq

/-- The trailing-argument descriptor of an assertion call (spec section 4.3).
Each constructor is one syntactic shape of the current macros' trailing
arguments:
* `noArgs` — Form A;
* `errIdent` — Form B, a bare `$err_code: ident` token naming a member of the
  hosting program's error enumeration;
* `errIdentMsg` — the `ident` token plus a message expression;
* `msgLiteral` — Form C, a literal text value;
* `errExpr` — Form D, an arbitrary error-valued expression;
* `errAndMsg` — Form E, an error-valued expression plus a message. -/
inductive Arg
  | noArgs
  | errIdent (code : Nat)
  | errIdentMsg (code : Nat) (msg : String)
  | msgLiteral (msg : String)
  | errExpr (e : ErrValue)
  | errAndMsg (e : ErrValue) (msg : String)
deriving DecidableEq

/-- Resolution of a trailing-argument descriptor into the resolved error and
resolved message, following the macro-arm chaining shared by the current
`assert_keys_eq!`, `assert_keys_neq!`, `invariant!`,
`assert_is_zero_token_account!` and `unwrap_opt!`:
* no arguments chain to the construct's default kind `dflt` as a Form-D
  expression, so the message is `format_err!(dflt)`;
* an `ident` token becomes `crate::ErrorCode::$err_code` (a host error);
* a literal keeps the default kind and wraps the text with the construct's
  fixed message lead-in `pre`;
* a Form-D expression gets message `format_err!(err)`;
* Form E uses both supplied values verbatim. -/
def resolveArg (dflt : VipersError) (pre : String) : Arg → ErrValue × String
  | .noArgs => (.vipers dflt, formatErr (.vipers dflt))
  | .errIdent c => (.host c, formatErr (.host c))
  | .errIdentMsg c m => (.host c, m)
  | .msgLiteral m => (.vipers dflt, pre ++ m)
  | .errExpr e => (e, formatErr e)
  | .errAndMsg e m => (e, m)

/-- An account handle: one of the host-defined wrapper variants for which the
library implements `AsKeyRef` (`vipers/src/keyref.rs`), plus `boxed`, the
`Box`ed wrapper whose method resolution projects through to the inner handle.
Each wrapper's `as_ref()` yields its embedded `AccountInfo`. -/
inductive AccountHandle
  | pubkey (k : Pubkey)
  | account (info : AccountInfo)
  | accountInfo (info : AccountInfo)
  | accountLoader (info : AccountInfo)
  | signer (info : AccountInfo)
  | systemAccount (info : AccountInfo)
  | sysvar (info : AccountInfo)
  | uncheckedAccount (info : AccountInfo)
  | cpiAccount (info : AccountInfo)
  | cpiState (info : AccountInfo)
  | loader (info : AccountInfo)
  | programAccount (info : AccountInfo)
  | programState (info : AccountInfo)
  | boxed (inner : AccountHandle)
deriving DecidableEq

/-- The capability `AsKeyRef::as_key_ref` from `vipers/src/keyref.rs`: the `Pubkey` impl
returns itself, the `AccountInfo` impl returns `self.key`, and every wrapper
impl returns `self.as_ref().key`; a boxed handle dereferences to the inner
handle's impl. -/
def asKeyRef : AccountHandle → Pubkey
  | .pubkey k => k
  | .account info => info.key
  | .accountInfo info => info.key
  | .accountLoader info => info.key
  | .signer info => info.key
  | .systemAccount info => info.key
  | .sysvar info => info.key
  | .uncheckedAccount info => info.key
  | .cpiAccount info => info.key
  | .cpiState info => info.key
  | .loader info => info.key
  | .programAccount info => info.key
  | .programState info => info.key
  | .boxed inner => asKeyRef inner

/-- The macro `assert_keys_eq!` (current, `vipers/src/assert.rs`): compares the two
handles' keys; on mismatch emits the resolved message, the stringified
condition `a != b`, the `Left:`/`Right:` key lines and the code location,
then throws the resolved error. -/
def assertKeysEq (ha hb : AccountHandle) (arg : Arg) (srcA srcB : String)
    (loc : SrcLoc) : Outcome :=
  let r := resolveArg .KeyMismatch "Key mismatch: " arg
  let a := asKeyRef ha
  let b := asKeyRef hb
  if a ≠ b then
    { logs := [.message r.2, .srcText (srcA ++ " != " ++ srcB), .leftKey a,
        .rightKey b, .thrownAt loc.file loc.line],
      result := .error r.1 }
  else
    { logs := [], result := .ok () }

/-- The macro `assert_keys_neq!` (current): same shape as `assertKeysEq` with the
comparison reversed, default kind `KeysMustNotMatch`, and stringified
condition `a == b`. -/
def assertKeysNeq (ha hb : AccountHandle) (arg : Arg) (srcA srcB : String)
    (loc : SrcLoc) : Outcome :=
  let r := resolveArg .KeysMustNotMatch "Keys must not match: " arg
  let a := asKeyRef ha
  let b := asKeyRef hb
  if a = b then
    { logs := [.message r.2, .srcText (srcA ++ " == " ++ srcB), .leftKey a,
        .rightKey b, .thrownAt loc.file loc.line],
      result := .error r.1 }
  else
    { logs := [], result := .ok () }

/-- The macro `invariant!` (current): if the condition is false, emits the resolved
message, the stringified condition and the code location, then throws the
resolved error. -/
def invariant (cond : Bool) (arg : Arg) (srcCond : String) (loc : SrcLoc) :
    Outcome :=
  let r := resolveArg .InvariantFailed "Invariant failed: " arg
  if !cond then
    { logs := [.message r.2, .srcText srcCond, .thrownAt loc.file loc.line],
      result := .error r.1 }
  else
    { logs := [], result := .ok () }

/-- A token account, with the three fields
`assert_is_zero_token_account!` reads. -/
structure TokenAccount where
  amount : Nat
  delegate : Option Pubkey
  closeAuthority : Option Pubkey
deriving DecidableEq

/-- The macro `assert_is_zero_token_account!` (current): resolves its trailing
arguments with default kind `TokenAccountIsNonZero`, then feeds the combined
condition `amount == 0 && delegate.is_none() && close_authority.is_none()`
into `invariant!` with the resolved error and message (its Form-E arm). -/
def assertIsZeroTokenAccount (ta : TokenAccount) (arg : Arg)
    (srcCond : String) (loc : SrcLoc) : Outcome :=
  let r := resolveArg .TokenAccountIsNonZero "Token account is non-zero: " arg
  invariant (ta.amount == 0 && ta.delegate.isNone && ta.closeAuthority.isNone)
    (.errAndMsg r.1 r.2) srcCond loc

/-- The macro `assert_owner!` (current): compares the account's recorded owner with the
expected owner's key; on mismatch emits one combined
`"Owner mismatch: {}: expected {}, got {}"` line and returns
`VipersError::OwnerMismatch` directly (no stringified condition and no code
location are logged, and the thrown error is fixed). -/
def assertOwner (programAccount : AccountInfo) (owner : AccountHandle)
    (msg : String) : Outcome :=
  let ownerKey := asKeyRef owner
  if programAccount.owner ≠ ownerKey then
    { logs := [.ownerMismatch msg programAccount.owner ownerKey],
      result := .error (.vipers .OwnerMismatch) }
  else
    { logs := [], result := .ok () }

/-- The `assert_owner!` two-argument form: chains with
the default message `"owner mismatch"`. -/
def assertOwnerDefault (programAccount : AccountInfo)
    (owner : AccountHandle) : Outcome :=
  assertOwner programAccount owner "owner mismatch"

/-- Result of an unwrap construct: the log trace and either the unwrapped
value or the thrown error. -/
structure UnwrapOutcome (α : Type) where
  logs : List Log
  result : Except ErrValue α
deriving DecidableEq

/-- The macro `unwrap_opt!` (current): resolves its trailing arguments with default
kind `OptionUnwrapFailed`; if the option is absent it emits
`"Option unwrap failed: {:?}"` with the resolved error's debug rendering,
the stringified option expression and the code location, then returns the
resolved error (the resolved message itself is not emitted by this
construct). -/
def unwrapOpt {α : Type} (o : Option α) (arg : Arg) (srcOpt : String)
    (loc : SrcLoc) : UnwrapOutcome α :=
  let r := resolveArg .OptionUnwrapFailed "" arg
  match o with
  | some v => { logs := [], result := .ok v }
  | none =>
    { logs := [.optUnwrapFailed r.1.debugStr, .srcText srcOpt,
        .thrownAt loc.file loc.line],
      result := .error r.1 }

/-- The macro `unwrap_int!` (current): `unwrap_opt!` with
`VipersError::IntegerOverflow` as the Form-D error expression. -/
def unwrapInt {α : Type} (o : Option α) (srcOpt : String) (loc : SrcLoc) :
    UnwrapOutcome α :=
  unwrapOpt o (.errExpr (.vipers .IntegerOverflow)) srcOpt loc

/-- Trailing-argument descriptor of the legacy (`src/assert.rs`) `invariant!`
and `unwrap_opt!` macros, which have no zero-trailing-argument arm. -/
inductive ArgV1
  | errIdent (code : Nat)
  | msgLiteral (msg : String)
  | errExpr (e : ErrValue)
  | errAndMsg (e : ErrValue) (msg : String)
deriving DecidableEq

/-- Resolution of the legacy trailing arguments (shared by the legacy
`invariant!` and `unwrap_opt!`): the `ident` arm becomes
`crate::ErrorCode::$err_code`, a literal keeps the default kind with the
literal as message (no lead-in), an expression gets `format_err!`. -/
def resolveArgV1 (dflt : VipersError) : ArgV1 → ErrValue × String
  | .errIdent c => (.host c, formatErr (.host c))
  | .msgLiteral m => (.vipers dflt, m)
  | .errExpr e => (e, formatErr e)
  | .errAndMsg e m => (e, m)

/-- Legacy `invariant!` (`src/assert.rs`): if the condition is false, logs
`"Invariant failed: {:?}"` with the resolved error's debug rendering and the
code location, then throws `VipersError::InvariantFailed` — the resolved
error itself is only logged, never thrown. -/
def invariantV1 (cond : Bool) (arg : ArgV1) (loc : SrcLoc) : Outcome :=
  let r := resolveArgV1 .InvariantFailed arg
  if !cond then
    { logs := [.invariantFailedDbg r.1.debugStr, .thrownAt loc.file loc.line],
      result := .error (.vipers .InvariantFailed) }
  else
    { logs := [], result := .ok () }

/-- Legacy `unwrap_opt!` (`src/assert.rs`): if the option is absent, logs
`"Option unwrap failed: {:?}"` with the resolved error's debug rendering and
the code location, then returns `VipersError::OptionUnwrapFailed` — the
resolved error itself is only logged, never returned. -/
def unwrapOptV1 {α : Type} (o : Option α) (arg : ArgV1) (loc : SrcLoc) :
    UnwrapOutcome α :=
  let r := resolveArgV1 .OptionUnwrapFailed arg
  match o with
  | some v => { logs := [], result := .ok v }
  | none =>
    { logs := [.optUnwrapFailed r.1.debugStr, .thrownAt loc.file loc.line],
      result := .error (.vipers .OptionUnwrapFailed) }

/-- The function `validate_derived_address` (current, `vipers/src/lib.rs`).  The host's
deterministic address-derivation primitive `Pubkey::create_program_address`
is an external collaborator, passed here as a function from seeds and program
id to an optional derived key.  The source first executes a stray
`println!("test")` (modelled as the returned stdout trace), then matches on
the derivation result: equality of the derived key with the claimed address
on success, `false` on derivation failure. -/
def validateDerivedAddress
    (createProgramAddress : List (List Nat) → Pubkey → Option Pubkey)
    (derivedAddress programId : Pubkey) (seeds : List (List Nat)) :
    Bool × List String :=
  let stdout := ["test"]
  match createProgramAddress seeds programId with
  | some key => (derivedAddress == key, stdout)
  | none => (false, stdout)

/-- Legacy `validate_derived_address` (`src/lib.rs`): same match, with no
output of any kind. -/
def validateDerivedAddressV1
    (createProgramAddress : List (List Nat) → Pubkey → Option Pubkey)
    (derivedAddress programId : Pubkey) (seeds : List (List Nat)) : Bool :=
  match createProgramAddress seeds programId with
  | some key => derivedAddress == key
  | none => false

/-- The host's `solana_program::ProgramError` value carried inside
`anchor_lang::error::Error::ProgramError`.  It is either a `Custom` program
error with a `u32` code or one of the payload-free builtin framework
variants, identified here by declaration index. -/
inductive SPError
  | custom (code : Nat)
  | builtin (idx : Nat)
deriving DecidableEq

/-- The data of `anchor_lang`'s `AnchorError`: equality of comparable errors
reads only `error_code_number`; the name, message and source origin are
carried along but excluded from comparison. -/
structure AnchorErrorData where
  errorName : String
  errorCodeNumber : Nat
  errorMsg : String
  errorOrigin : Option (String × Nat)
deriving DecidableEq

/-- The data of `anchor_lang`'s `ProgramErrorWithOrigin`: equality of
comparable errors reads only `program_error`; the source origin is excluded
from comparison. -/
structure ProgramErrorWithOrigin where
  programError : SPError
  errorOrigin : Option (String × Nat)
deriving DecidableEq

/-- The host type `anchor_lang::error::Error`: either a framework `AnchorError` or a
wrapped `ProgramError`. -/
inductive AnchorError
  | anchorError (d : AnchorErrorData)
  | programError (d : ProgramErrorWithOrigin)
deriving DecidableEq

/-- The comparison `CmpError::eq` from `vipers/src/error.rs`: two `AnchorError`s compare by
`error_code_number`, two `ProgramError`s compare by `program_error`, and any
cross-family pair is unequal. -/
def cmpErrorEq : AnchorError → AnchorError → Bool
  | .anchorError a, .anchorError b => a.errorCodeNumber == b.errorCodeNumber
  | .programError a, .programError b => a.programError == b.programError
  | _, _ => false

/-- Equality of `Option<CmpError>` values, as produced by
`IntoCmpError::into_cmp_error` and compared by the library's test
assertions: both absent compare equal, both present compare by
`CmpError::eq`, and mixed presence is unequal (the `Option` `PartialEq`). -/
def cmpErrorEqOpt : Option AnchorError → Option AnchorError → Bool
  | none, none => true
  | some a, some b => cmpErrorEq a b
  | _, _ => false

/-- Whether a trailing-argument descriptor explicitly supplies
`VipersError::UnknownBump` as its Form-D/E error expression. -/
def Arg.suppliesUnknownBump : Arg → Bool
  | .errExpr e => e == .vipers .UnknownBump
  | .errAndMsg e _ => e == .vipers .UnknownBump
  | _ => false

/-- The combined boolean condition of `assert_is_zero_token_account!`,
propositionally. -/
theorem zeroTokenCond_iff (ta : TokenAccount) :
    (ta.amount == 0 && ta.delegate.isNone && ta.closeAuthority.isNone) = true ↔
      ta.amount = 0 ∧ ta.delegate = none ∧ ta.closeAuthority = none := by
  simp [Option.isNone_iff_eq_none, and_assoc]

/-- Claim C7: for every supported account-handle variant wrapping identifier
K — plain identifier, checked account, raw account info, zero-copy loader,
signer, system account, sysvar, unchecked account, each deprecated legacy
form, and boxed wrappers projected through to the inner handle —
`as_key_ref` is total (a total Lean function) and returns exactly K. -/
theorem c7_as_key_ref_projection :
    (∀ k : Pubkey, asKeyRef (.pubkey k) = k)
  ∧ (∀ i : AccountInfo, asKeyRef (.account i) = i.key)
  ∧ (∀ i : AccountInfo, asKeyRef (.accountInfo i) = i.key)
  ∧ (∀ i : AccountInfo, asKeyRef (.accountLoader i) = i.key)
  ∧ (∀ i : AccountInfo, asKeyRef (.signer i) = i.key)
  ∧ (∀ i : AccountInfo, asKeyRef (.systemAccount i) = i.key)
  ∧ (∀ i : AccountInfo, asKeyRef (.sysvar i) = i.key)
  ∧ (∀ i : AccountInfo, asKeyRef (.uncheckedAccount i) = i.key)
  ∧ (∀ i : AccountInfo, asKeyRef (.cpiAccount i) = i.key)
  ∧ (∀ i : AccountInfo, asKeyRef (.cpiState i) = i.key)
  ∧ (∀ i : AccountInfo, asKeyRef (.loader i) = i.key)
  ∧ (∀ i : AccountInfo, asKeyRef (.programAccount i) = i.key)
  ∧ (∀ i : AccountInfo, asKeyRef (.programState i) = i.key)
  ∧ (∀ h : AccountHandle, asKeyRef (.boxed h) = asKeyRef h) :=
  ⟨fun _ => rfl, fun _ => rfl, fun _ => rfl, fun _ => rfl, fun _ => rfl,
   fun _ => rfl, fun _ => rfl, fun _ => rfl, fun _ => rfl, fun _ => rfl,
   fun _ => rfl, fun _ => rfl, fun _ => rfl, fun _ => rfl⟩

/-- Claim C4: `assert_keys_eq(A, B)` succeeds with no observable effect
whenever the two handles' identifiers are equal (for every trailing-argument
form); when the identifiers differ it fails with `KeyMismatch` under the
no-trailing-argument form, with the caller-supplied host kind under the
error-kind-token form, and with the caller-supplied error under Form D. -/
theorem c4_assert_keys_eq_spec :
    (∀ ha hb arg srcA srcB loc, asKeyRef ha = asKeyRef hb →
       assertKeysEq ha hb arg srcA srcB loc = ⟨[], .ok ()⟩)
  ∧ (∀ ha hb srcA srcB loc, asKeyRef ha ≠ asKeyRef hb →
       (assertKeysEq ha hb .noArgs srcA srcB loc).result =
         .error (.vipers .KeyMismatch))
  ∧ (∀ ha hb c srcA srcB loc, asKeyRef ha ≠ asKeyRef hb →
       (assertKeysEq ha hb (.errIdent c) srcA srcB loc).result =
         .error (.host c))
  ∧ (∀ ha hb e srcA srcB loc, asKeyRef ha ≠ asKeyRef hb →
       (assertKeysEq ha hb (.errExpr e) srcA srcB loc).result =
         .error e) := by
  refine ⟨fun ha hb arg srcA srcB loc h => ?_,
    fun ha hb srcA srcB loc h => ?_, fun ha hb c srcA srcB loc h => ?_,
    fun ha hb e srcA srcB loc h => ?_⟩ <;>
    simp [assertKeysEq, resolveArg, h]

/-- Witness for C4 at concrete identifiers. -/
theorem c4_assert_keys_eq_spec_witness :
    assertKeysEq (.pubkey ⟨5⟩) (.boxed (.pubkey ⟨5⟩)) .noArgs "a" "b" ⟨"f", 1⟩
      = ⟨[], .ok ()⟩
  ∧ (assertKeysEq (.pubkey ⟨5⟩) (.pubkey ⟨6⟩) .noArgs "a" "b" ⟨"f", 1⟩).result
      = .error (.vipers .KeyMismatch)
  ∧ (assertKeysEq (.pubkey ⟨5⟩) (.pubkey ⟨6⟩) (.errIdent 3) "a" "b"
      ⟨"f", 1⟩).result = .error (.host 3)
  ∧ (assertKeysEq (.pubkey ⟨5⟩) (.pubkey ⟨6⟩) (.errExpr (.host 9)) "a" "b"
      ⟨"f", 1⟩).result = .error (.host 9) :=
  ⟨c4_assert_keys_eq_spec.1 _ _ _ _ _ _ (by decide),
   c4_assert_keys_eq_spec.2.1 _ _ _ _ _ (by decide),
   c4_assert_keys_eq_spec.2.2.1 _ _ _ _ _ _ (by decide),
   c4_assert_keys_eq_spec.2.2.2 _ _ _ _ _ _ (by decide)⟩

/-- Claim C5: `assert_keys_neq(A, B)` succeeds exactly when
`assert_keys_eq(A, B)` would fail, for every trailing-argument form, and
under the no-trailing-argument form it fails with `KeysMustNotMatch`
exactly when the identifiers are equal. -/
theorem c5_assert_keys_neq_negation :
    (∀ ha hb arg srcA srcB loc,
       (assertKeysNeq ha hb arg srcA srcB loc).result = .ok () ↔
         ¬ (assertKeysEq ha hb arg srcA srcB loc).result = .ok ())
  ∧ (∀ ha hb srcA srcB loc,
       (assertKeysNeq ha hb .noArgs srcA srcB loc).result =
         if asKeyRef ha = asKeyRef hb then .error (.vipers .KeysMustNotMatch)
         else .ok ()) := by
  constructor
  · intro ha hb arg srcA srcB loc
    by_cases h : asKeyRef ha = asKeyRef hb <;>
      simp [assertKeysEq, assertKeysNeq, h]
  · intro ha hb srcA srcB loc
    by_cases h : asKeyRef ha = asKeyRef hb <;>
      simp [assertKeysNeq, resolveArg, h]

/-- Claim C1: for the current `invariant!`, `invariant(true, ...)` is a
successful no-op for every trailing-argument form, `invariant(false)` fails
with `InvariantFailed`, and `invariant(false, E)` fails with exactly the
caller-supplied error E under every form that supplies one.  The final
conjuncts evaluate the legacy (`src/assert.rs`) `invariant!`, which instead
throws `InvariantFailed` even when a caller-supplied error is given — the
divergence that makes this claim a bug of the legacy copy. -/
theorem c1_invariant_forms :
    (∀ arg srcCond loc, invariant true arg srcCond loc = ⟨[], .ok ()⟩)
  ∧ (∀ srcCond loc, (invariant false .noArgs srcCond loc).result =
      .error (.vipers .InvariantFailed))
  ∧ (∀ m srcCond loc, (invariant false (.msgLiteral m) srcCond loc).result =
      .error (.vipers .InvariantFailed))
  ∧ (∀ c srcCond loc, (invariant false (.errIdent c) srcCond loc).result =
      .error (.host c))
  ∧ (∀ c m srcCond loc,
      (invariant false (.errIdentMsg c m) srcCond loc).result =
        .error (.host c))
  ∧ (∀ e srcCond loc, (invariant false (.errExpr e) srcCond loc).result =
      .error e)
  ∧ (∀ e m srcCond loc,
      (invariant false (.errAndMsg e m) srcCond loc).result = .error e)
  ∧ (∀ arg loc, invariantV1 true arg loc = ⟨[], .ok ()⟩)
  ∧ (∀ e loc, (invariantV1 false (.errExpr e) loc).result =
      .error (.vipers .InvariantFailed))
  ∧ (∀ c loc, (invariantV1 false (.errIdent c) loc).result =
      .error (.vipers .InvariantFailed)) :=
  ⟨fun _ _ _ => rfl, fun _ _ => rfl, fun _ _ _ => rfl, fun _ _ _ => rfl,
   fun _ _ _ _ => rfl, fun _ _ _ => rfl, fun _ _ _ _ => rfl,
   fun _ _ => rfl, fun _ _ => rfl, fun _ _ => rfl⟩

/-- Claim C2: every construct invoked with Form D (an arbitrary error-valued
expression) or Form E (error expression plus message expression) returns, on
its failure path, exactly the value of that expression; in particular the
current `unwrap_opt!` on an absent optional returns the caller-supplied
error itself.  The final conjuncts evaluate the legacy (`src/assert.rs`)
`unwrap_opt!`, which instead returns the library default
`OptionUnwrapFailed` in place of the supplied error — the divergence that
makes this claim a bug of the legacy copy. -/
theorem c2_form_d_e_error_verbatim :
    (∀ (α : Type) (e : ErrValue) srcOpt loc,
       (unwrapOpt (none : Option α) (.errExpr e) srcOpt loc).result =
         .error e)
  ∧ (∀ (α : Type) (e : ErrValue) m srcOpt loc,
       (unwrapOpt (none : Option α) (.errAndMsg e m) srcOpt loc).result =
         .error e)
  ∧ (∀ (α : Type) (v : α) arg srcOpt loc,
       (unwrapOpt (some v) arg srcOpt loc).result = .ok v)
  ∧ (∀ ha hb e srcA srcB loc,
       (assertKeysEq ha hb (.errExpr e) srcA srcB loc).result =
         if asKeyRef ha = asKeyRef hb then .ok () else .error e)
  ∧ (∀ ha hb e m srcA srcB loc,
       (assertKeysEq ha hb (.errAndMsg e m) srcA srcB loc).result =
         if asKeyRef ha = asKeyRef hb then .ok () else .error e)
  ∧ (∀ ha hb e srcA srcB loc,
       (assertKeysNeq ha hb (.errExpr e) srcA srcB loc).result =
         if asKeyRef ha = asKeyRef hb then .error e else .ok ())
  ∧ (∀ ha hb e m srcA srcB loc,
       (assertKeysNeq ha hb (.errAndMsg e m) srcA srcB loc).result =
         if asKeyRef ha = asKeyRef hb then .error e else .ok ())
  ∧ (∀ cond e srcCond loc,
       (invariant cond (.errExpr e) srcCond loc).result =
         if cond = true then .ok () else .error e)
  ∧ (∀ cond e m srcCond loc,
       (invariant cond (.errAndMsg e m) srcCond loc).result =
         if cond = true then .ok () else .error e)
  ∧ (∀ ta e srcCond loc,
       (assertIsZeroTokenAccount ta (.errExpr e) srcCond loc).result =
         if ta.amount = 0 ∧ ta.delegate = none ∧ ta.closeAuthority = none
         then .ok () else .error e)
  ∧ (∀ (α : Type) (e : ErrValue) loc,
       (unwrapOptV1 (none : Option α) (.errExpr e) loc).result =
         .error (.vipers .OptionUnwrapFailed))
  ∧ (∀ (α : Type) (e : ErrValue) m loc,
       (unwrapOptV1 (none : Option α) (.errAndMsg e m) loc).result =
         .error (.vipers .OptionUnwrapFailed)) := by
  refine ⟨fun α e srcOpt loc => rfl, fun α e m srcOpt loc => rfl,
    fun α v arg srcOpt loc => rfl, ?_, ?_, ?_, ?_, ?_, ?_, ?_,
    fun α e loc => rfl, fun α e m loc => rfl⟩
  · intro ha hb e srcA srcB loc
    by_cases h : asKeyRef ha = asKeyRef hb <;>
      simp [assertKeysEq, resolveArg, h]
  · intro ha hb e m srcA srcB loc
    by_cases h : asKeyRef ha = asKeyRef hb <;>
      simp [assertKeysEq, resolveArg, h]
  · intro ha hb e srcA srcB loc
    by_cases h : asKeyRef ha = asKeyRef hb <;>
      simp [assertKeysNeq, resolveArg, h]
  · intro ha hb e m srcA srcB loc
    by_cases h : asKeyRef ha = asKeyRef hb <;>
      simp [assertKeysNeq, resolveArg, h]
  · intro cond e srcCond loc
    cases cond <;> simp [invariant, resolveArg]
  · intro cond e m srcCond loc
    cases cond <;> simp [invariant, resolveArg]
  · intro ta e srcCond loc
    by_cases h : ta.amount = 0 ∧ ta.delegate = none ∧ ta.closeAuthority = none
    · rw [if_pos h]
      have hc := (zeroTokenCond_iff ta).2 h
      simp [assertIsZeroTokenAccount, invariant, resolveArg, hc]
    · rw [if_neg h]
      have hc : (ta.amount == 0 && ta.delegate.isNone
          && ta.closeAuthority.isNone) = false := by
        rcases Bool.eq_false_or_eq_true
          (ta.amount == 0 && ta.delegate.isNone && ta.closeAuthority.isNone)
          with hb | hb
        · exact absurd ((zeroTokenCond_iff ta).1 hb) h
        · exact hb
      simp [assertIsZeroTokenAccount, invariant, resolveArg, hc]

/-- Claim C8: `assert_is_zero_token_account` succeeds exactly when the
amount is zero and both delegate and close authority are absent; each of the
three violations is independently sufficient to fail, and under the
no-trailing-argument form the failure kind is `TokenAccountIsNonZero`. -/
theorem c8_assert_is_zero_token_account :
    (∀ ta arg srcCond loc,
       (assertIsZeroTokenAccount ta arg srcCond loc).result = .ok () ↔
         ta.amount = 0 ∧ ta.delegate = none ∧ ta.closeAuthority = none)
  ∧ (∀ ta srcCond loc, ta.amount ≠ 0 →
       (assertIsZeroTokenAccount ta .noArgs srcCond loc).result =
         .error (.vipers .TokenAccountIsNonZero))
  ∧ (∀ ta d srcCond loc, ta.delegate = some d →
       (assertIsZeroTokenAccount ta .noArgs srcCond loc).result =
         .error (.vipers .TokenAccountIsNonZero))
  ∧ (∀ ta c srcCond loc, ta.closeAuthority = some c →
       (assertIsZeroTokenAccount ta .noArgs srcCond loc).result =
         .error (.vipers .TokenAccountIsNonZero)) := by
  have hres : ∀ ta arg srcCond loc,
      (assertIsZeroTokenAccount ta arg srcCond loc).result =
        if ta.amount = 0 ∧ ta.delegate = none ∧ ta.closeAuthority = none
        then .ok ()
        else .error (resolveArg .TokenAccountIsNonZero
          "Token account is non-zero: " arg).1 := by
    intro ta arg srcCond loc
    by_cases h : ta.amount = 0 ∧ ta.delegate = none ∧ ta.closeAuthority = none
    · rw [if_pos h]
      have hc := (zeroTokenCond_iff ta).2 h
      simp [assertIsZeroTokenAccount, invariant, resolveArg, hc]
    · rw [if_neg h]
      have hc : (ta.amount == 0 && ta.delegate.isNone
          && ta.closeAuthority.isNone) = false := by
        rcases Bool.eq_false_or_eq_true
          (ta.amount == 0 && ta.delegate.isNone && ta.closeAuthority.isNone)
          with hb | hb
        · exact absurd ((zeroTokenCond_iff ta).1 hb) h
        · exact hb
      simp [assertIsZeroTokenAccount, invariant, resolveArg, hc]
  refine ⟨fun ta arg srcCond loc => ?_, fun ta srcCond loc h => ?_,
    fun ta d srcCond loc h => ?_, fun ta c srcCond loc h => ?_⟩
  · rw [hres]
    by_cases h : ta.amount = 0 ∧ ta.delegate = none ∧ ta.closeAuthority = none
      <;> simp [h]
  · rw [hres, if_neg (by simp [h]), resolveArg]
  · rw [hres, if_neg (by simp [h]), resolveArg]
  · rw [hres, if_neg (by simp [h]), resolveArg]

/-- Witness for C8, mirroring the doctest of
`assert_is_zero_token_account!`: an amount of 10, a present delegate, and a
present close authority each fail independently, and the default account
passes. -/
theorem c8_assert_is_zero_token_account_witness :
    (assertIsZeroTokenAccount ⟨10, none, none⟩ .noArgs "c" ⟨"f", 1⟩).result =
      .error (.vipers .TokenAccountIsNonZero)
  ∧ (assertIsZeroTokenAccount ⟨0, some ⟨7⟩, none⟩ .noArgs "c"
      ⟨"f", 1⟩).result = .error (.vipers .TokenAccountIsNonZero)
  ∧ (assertIsZeroTokenAccount ⟨0, none, some ⟨7⟩⟩ .noArgs "c"
      ⟨"f", 1⟩).result = .error (.vipers .TokenAccountIsNonZero)
  ∧ ((assertIsZeroTokenAccount ⟨0, none, none⟩ .noArgs "c" ⟨"f", 1⟩).result =
      .ok () ↔ (0 : Nat) = 0 ∧ (none : Option Pubkey) = none
        ∧ (none : Option Pubkey) = none) :=
  ⟨c8_assert_is_zero_token_account.2.1 ⟨10, none, none⟩ "c" ⟨"f", 1⟩
      (by decide),
   c8_assert_is_zero_token_account.2.2.1 ⟨0, some ⟨7⟩, none⟩ ⟨7⟩ "c" ⟨"f", 1⟩
      rfl,
   c8_assert_is_zero_token_account.2.2.2 ⟨0, none, some ⟨7⟩⟩ ⟨7⟩ "c" ⟨"f", 1⟩
      rfl,
   c8_assert_is_zero_token_account.1 ⟨0, none, none⟩ .noArgs "c" ⟨"f", 1⟩⟩

/-- Counterexample to claim C3 as stated: the ownership assertion
(`assert_owner!`), at a concrete failing input, emits exactly one log line —
its single combined owner-mismatch line — and returns the error without ever
emitting the source text of the failed condition or the source-file-and-line
line that the claim requires of every listed construct. -/
theorem c3_owner_counterexample :
    (assertOwnerDefault ⟨⟨1⟩, ⟨2⟩⟩ (.pubkey ⟨3⟩)).result =
      .error (.vipers .OwnerMismatch)
  ∧ (assertOwnerDefault ⟨⟨1⟩, ⟨2⟩⟩ (.pubkey ⟨3⟩)).logs =
      [.ownerMismatch "owner mismatch" ⟨2⟩ ⟨3⟩]
  ∧ (assertOwnerDefault ⟨⟨1⟩, ⟨2⟩⟩ (.pubkey ⟨3⟩)).logs.length = 1 :=
  ⟨rfl, rfl, rfl⟩

/-- Claim C3 (amended): on failure, the key-equality, key-inequality,
invariant and zero-token-account constructs emit, in order, the resolved
message, the source text of the failed condition, for key comparisons the
`Left:` and `Right:` identifier lines, and the source file and line, and
only then return the resolved error; the ownership assertion instead emits
one combined owner-mismatch line (message plus both identifiers) and
returns `OwnerMismatch` directly, with no condition-text or location
line. -/
theorem c3_failure_side_effect_order :
    (∀ ha hb arg srcA srcB loc,
       assertKeysEq ha hb arg srcA srcB loc =
         if asKeyRef ha = asKeyRef hb then ⟨[], .ok ()⟩
         else
           ⟨[.message (resolveArg .KeyMismatch "Key mismatch: " arg).2,
             .srcText (srcA ++ " != " ++ srcB),
             .leftKey (asKeyRef ha), .rightKey (asKeyRef hb),
             .thrownAt loc.file loc.line],
            .error (resolveArg .KeyMismatch "Key mismatch: " arg).1⟩)
  ∧ (∀ ha hb arg srcA srcB loc,
       assertKeysNeq ha hb arg srcA srcB loc =
         if asKeyRef ha = asKeyRef hb then
           ⟨[.message
               (resolveArg .KeysMustNotMatch "Keys must not match: " arg).2,
             .srcText (srcA ++ " == " ++ srcB),
             .leftKey (asKeyRef ha), .rightKey (asKeyRef hb),
             .thrownAt loc.file loc.line],
            .error (resolveArg .KeysMustNotMatch "Keys must not match: "
              arg).1⟩
         else ⟨[], .ok ()⟩)
  ∧ (∀ cond arg srcCond loc,
       invariant cond arg srcCond loc =
         if cond = true then ⟨[], .ok ()⟩
         else
           ⟨[.message (resolveArg .InvariantFailed "Invariant failed: "
               arg).2,
             .srcText srcCond, .thrownAt loc.file loc.line],
            .error (resolveArg .InvariantFailed "Invariant failed: "
              arg).1⟩)
  ∧ (∀ ta arg srcCond loc,
       assertIsZeroTokenAccount ta arg srcCond loc =
         if ta.amount = 0 ∧ ta.delegate = none ∧ ta.closeAuthority = none
         then ⟨[], .ok ()⟩
         else
           ⟨[.message (resolveArg .TokenAccountIsNonZero
               "Token account is non-zero: " arg).2,
             .srcText srcCond, .thrownAt loc.file loc.line],
            .error (resolveArg .TokenAccountIsNonZero
              "Token account is non-zero: " arg).1⟩)
  ∧ (∀ pa owner msg,
       assertOwner pa owner msg =
         if pa.owner = asKeyRef owner then ⟨[], .ok ()⟩
         else
           ⟨[.ownerMismatch msg pa.owner (asKeyRef owner)],
            .error (.vipers .OwnerMismatch)⟩) := by
  refine ⟨fun ha hb arg srcA srcB loc => ?_, fun ha hb arg srcA srcB loc => ?_,
    fun cond arg srcCond loc => ?_, fun ta arg srcCond loc => ?_,
    fun pa owner msg => ?_⟩
  · by_cases h : asKeyRef ha = asKeyRef hb <;> simp [assertKeysEq, h]
  · by_cases h : asKeyRef ha = asKeyRef hb <;> simp [assertKeysNeq, h]
  · cases cond <;> simp [invariant]
  · by_cases h : ta.amount = 0 ∧ ta.delegate = none ∧ ta.closeAuthority = none
    · rw [if_pos h]
      have hc := (zeroTokenCond_iff ta).2 h
      simp [assertIsZeroTokenAccount, invariant, hc]
    · rw [if_neg h]
      have hc : (ta.amount == 0 && ta.delegate.isNone
          && ta.closeAuthority.isNone) = false := by
        rcases Bool.eq_false_or_eq_true
          (ta.amount == 0 && ta.delegate.isNone && ta.closeAuthority.isNone)
          with hb | hb
        · exact absurd ((zeroTokenCond_iff ta).1 hb) h
        · exact hb
      simp [assertIsZeroTokenAccount, invariant, resolveArg, hc]
  · by_cases h : pa.owner = asKeyRef owner <;> simp [assertOwner, h]

/-- Claim C9: the value computed by `validate_derived_address` is `true`
exactly when the host derivation primitive succeeds on the seeds and program
id and its result equals the claimed address, and `false` otherwise (it is
total, so it never throws); but the current revision also performs a side
effect on every invocation — the stray `println!("test")` — modelled here as
its stdout trace, which is never empty.  The legacy revision computes the
same value with no output. -/
theorem c9_validate_derived_address_behavior :
    (∀ cpa (d p : Pubkey) (s : List (List Nat)),
       (validateDerivedAddress cpa d p s).1 = true ↔ cpa s p = some d)
  ∧ (∀ cpa (d p : Pubkey) (s : List (List Nat)),
       (validateDerivedAddress cpa d p s).2 = ["test"])
  ∧ (∀ cpa (d p : Pubkey) (s : List (List Nat)),
       validateDerivedAddressV1 cpa d p s = true ↔ cpa s p = some d) := by
  refine ⟨fun cpa d p s => ?_, fun cpa d p s => ?_, fun cpa d p s => ?_⟩
  · cases h : cpa s p with
    | none => simp [validateDerivedAddress, h]
    | some key =>
      simp only [validateDerivedAddress, h, beq_iff_eq, Option.some.injEq]
      exact eq_comm
  · cases h : cpa s p <;> simp [validateDerivedAddress, h]
  · cases h : cpa s p with
    | none => simp [validateDerivedAddressV1, h]
    | some key =>
      simp only [validateDerivedAddressV1, h, beq_iff_eq, Option.some.injEq]
      exact eq_comm

/-- For any default kind other than `UnknownBump`, argument resolution only
yields `UnknownBump` when the descriptor explicitly supplies it. -/
theorem resolveArg_fst_ne_unknownBump (dflt : VipersError) (pre : String)
    (arg : Arg) (hd : dflt ≠ .UnknownBump)
    (hs : arg.suppliesUnknownBump = false) :
    (resolveArg dflt pre arg).1 ≠ .vipers .UnknownBump := by
  cases arg <;> simp_all [resolveArg, Arg.suppliesUnknownBump]

/-- Counterexample to claim C10 as stated: the invariant construct, invoked
with `VipersError::UnknownBump` as the caller-supplied Form-D error
expression on a false condition, does produce the `UnknownBump` error
kind. -/
theorem c10_unknown_bump_counterexample :
    (invariant false (.errExpr (.vipers .UnknownBump)) "cond"
      ⟨"f", 1⟩).result = .error (.vipers .UnknownBump) := rfl

/-- Claim C10 (amended): `UnknownBump` is the last taxonomy variant, with
code 1110, and no assertion, invariant, unwrap or ownership construct ever
produces it unless the caller explicitly supplies it as the Form-D/E error
expression: under every descriptor that does not supply it — in particular
the default, error-kind-token and message-literal forms — every failure
path returns some other error. -/
theorem c10_unknown_bump_never_default :
    VipersError.code .UnknownBump = 1110
  ∧ (∀ ha hb arg srcA srcB loc, arg.suppliesUnknownBump = false →
       (assertKeysEq ha hb arg srcA srcB loc).result ≠
         .error (.vipers .UnknownBump))
  ∧ (∀ ha hb arg srcA srcB loc, arg.suppliesUnknownBump = false →
       (assertKeysNeq ha hb arg srcA srcB loc).result ≠
         .error (.vipers .UnknownBump))
  ∧ (∀ cond arg srcCond loc, arg.suppliesUnknownBump = false →
       (invariant cond arg srcCond loc).result ≠
         .error (.vipers .UnknownBump))
  ∧ (∀ ta arg srcCond loc, arg.suppliesUnknownBump = false →
       (assertIsZeroTokenAccount ta arg srcCond loc).result ≠
         .error (.vipers .UnknownBump))
  ∧ (∀ (o : Option Nat) arg srcOpt loc, arg.suppliesUnknownBump = false →
       (unwrapOpt o arg srcOpt loc).result ≠
         .error (.vipers .UnknownBump))
  ∧ (∀ pa owner msg,
       (assertOwner pa owner msg).result ≠ .error (.vipers .UnknownBump))
  ∧ (∀ (o : Option Nat) srcOpt loc,
       (unwrapInt o srcOpt loc).result ≠ .error (.vipers .UnknownBump)) := by
  refine ⟨rfl, fun ha hb arg srcA srcB loc hs => ?_,
    fun ha hb arg srcA srcB loc hs => ?_, fun cond arg srcCond loc hs => ?_,
    fun ta arg srcCond loc hs => ?_, fun o arg srcOpt loc hs => ?_,
    fun pa owner msg => ?_, fun o srcOpt loc => ?_⟩
  · by_cases h : asKeyRef ha = asKeyRef hb <;> simp [assertKeysEq, h]
    exact resolveArg_fst_ne_unknownBump _ _ _ (by simp) hs
  · by_cases h : asKeyRef ha = asKeyRef hb <;> simp [assertKeysNeq, h]
    exact resolveArg_fst_ne_unknownBump _ _ _ (by simp) hs
  · cases cond <;> simp [invariant]
    exact resolveArg_fst_ne_unknownBump _ _ _ (by simp) hs
  · rcases Bool.eq_false_or_eq_true
        (ta.amount == 0 && ta.delegate.isNone && ta.closeAuthority.isNone)
        with hc | hc <;>
      simp [assertIsZeroTokenAccount, invariant, resolveArg, hc]
    exact resolveArg_fst_ne_unknownBump _ _ _ (by simp) hs
  · cases o <;> simp [unwrapOpt]
    exact resolveArg_fst_ne_unknownBump _ _ _ (by simp) hs
  · by_cases h : pa.owner = asKeyRef owner <;> simp [assertOwner, h]
  · cases o <;> simp [unwrapInt, unwrapOpt, resolveArg]

/-- Witness for C10 (amended), at concrete inputs for the default,
message-literal and error-kind-token forms. -/
theorem c10_unknown_bump_never_default_witness :
    (assertKeysEq (.pubkey ⟨1⟩) (.pubkey ⟨2⟩) .noArgs "a" "b"
      ⟨"f", 3⟩).result ≠ .error (.vipers .UnknownBump)
  ∧ (invariant false (.msgLiteral "m") "c" ⟨"f", 3⟩).result ≠
      .error (.vipers .UnknownBump)
  ∧ (unwrapOpt (none : Option Nat) (.errIdent 4) "o" ⟨"f", 3⟩).result ≠
      .error (.vipers .UnknownBump) :=
  ⟨c10_unknown_bump_never_default.2.1 _ _ .noArgs "a" "b" ⟨"f", 3⟩ rfl,
   c10_unknown_bump_never_default.2.2.2.1 false (.msgLiteral "m") "c"
     ⟨"f", 3⟩ rfl,
   c10_unknown_bump_never_default.2.2.2.2.2.1 none (.errIdent 4) "o"
     ⟨"f", 3⟩ rfl⟩

/-- Claim C6: comparable-error equality is true exactly when both operands
are absent, both are framework (`AnchorError`) errors with the same numeric
code, or both are wrapped program errors with the same `program_error`
value (names, message texts and source origins are quantified over freely,
so they are ignored; the host's `u64` encoding of these payload-free
program-error values is injective, so sameness of the `program_error` value
is sameness of its numeric code); every cross-family pair is unequal even
when the numeric codes coincide; and the relation is an equivalence. -/
theorem c6_cmp_error_equality :
    (∀ x y : Option AnchorError, cmpErrorEqOpt x y = true ↔
       (x = none ∧ y = none)
       ∨ (∃ a b, x = some (.anchorError a) ∧ y = some (.anchorError b)
           ∧ a.errorCodeNumber = b.errorCodeNumber)
       ∨ (∃ a b, x = some (.programError a) ∧ y = some (.programError b)
           ∧ a.programError = b.programError))
  ∧ (∀ a b, cmpErrorEq (.anchorError a) (.programError b) = false)
  ∧ (∀ a b, cmpErrorEq (.programError a) (.anchorError b) = false)
  ∧ Equivalence (fun x y : Option AnchorError => cmpErrorEqOpt x y = true)
    := by
  refine ⟨fun x y => ?_, fun a b => rfl, fun a b => rfl, ?_, ?_, ?_⟩
  · cases x with
    | none => cases y <;> simp [cmpErrorEqOpt]
    | some a =>
      cases y with
      | none => simp [cmpErrorEqOpt]
      | some b => cases a <;> cases b <;> simp [cmpErrorEqOpt, cmpErrorEq]
  · intro x
    cases x with
    | none => rfl
    | some a => cases a <;> simp [cmpErrorEqOpt, cmpErrorEq]
  · intro x y h
    cases x with
    | none =>
      cases y with
      | none => exact h
      | some b => simp [cmpErrorEqOpt] at h
    | some a =>
      cases y with
      | none => simp [cmpErrorEqOpt] at h
      | some b => cases a <;> cases b <;> simp_all [cmpErrorEqOpt, cmpErrorEq]
  · intro x y z h1 h2
    cases x with
    | none =>
      cases y with
      | none => exact h2
      | some b => simp [cmpErrorEqOpt] at h1
    | some a =>
      cases y with
      | none => simp [cmpErrorEqOpt] at h1
      | some b =>
        cases z with
        | none => simp [cmpErrorEqOpt] at h2
        | some c =>
          cases a <;> cases b <;> cases c <;>
            simp_all [cmpErrorEqOpt, cmpErrorEq]
